import Mathlib

/-!
# siginfo.c: crash report of a fatal signal

A shallow embedding of `src/siginfo.c`.  The constants the file takes from the
system headers (`<signal.h>`, `<ucontext.h>`) and the preprocessor switches of
the build are fields of `Platform`; the C library and the kernel (`dladdr`,
`__cxa_demangle`, `backtrace`, `sigaction`, the memory the frame pointer points
into) are fields of `Env`.  Every call of `siginfo_log` is recorded as the
format string with its argument list, in the order of the calls.
-/

namespace Siginfo

/-! ## Data model -/

/-- One `struct si_code_descriptor`; `description = none` is the `NULL` of the
terminating `{ 0, NULL }` row. -/
structure si_code_descriptor where
  code : Int
  description : Option String
deriving DecidableEq, Repr

/-- One `struct signal_descriptor`; `codes = none` is a `NULL` table pointer. -/
structure signal_descriptor where
  signo : Int
  descr : String
  codes : Option (List si_code_descriptor)
  msg : String
deriving DecidableEq, Repr

/-- What the build sees of the platform: preprocessor switches and the values of
the header constants used by the source. -/
structure Platform where
  USE_UCONTEXT : Bool
  SIGINFO_STACK_GENERIC : Bool
  SIGINFO_CPP_DEMANGLE : Bool
  REG_RIP_defined : Bool
  REG_EIP_defined : Bool
  REG : String → Nat
  NGREG : Nat
  sizeof_ptr : Nat
  sizeof_unsigned_int : Nat
  sizeof_unsigned_long : Nat
  sizeof_unsigned_long_long : Nat
  SIGILL : Int
  SIGFPE : Int
  SIGSEGV : Int
  SIGBUS : Int
  SIGABRT : Int
  ILL_ILLOPC : Int
  ILL_ILLOPN : Int
  ILL_ILLADR : Int
  ILL_ILLTRP : Int
  ILL_PRVOPC : Int
  ILL_PRVREG : Int
  ILL_COPROC : Int
  ILL_BADSTK : Int
  FPE_INTDIV : Int
  FPE_INTOVF : Int
  FPE_FLTDIV : Int
  FPE_FLTOVF : Int
  FPE_FLTUND : Int
  FPE_FLTRES : Int
  FPE_FLTINV : Int
  FPE_FLTSUB : Int
  SEGV_MAPERR : Int
  SEGV_ACCERR : Int
  BUS_ADRALN : Int
  BUS_ADRERR : Int
  BUS_OBJERR : Int
  SI_USER : Int
  SI_KERNEL : Option Int
  SI_QUEUE : Int
  SI_TIMER : Int
  SI_ASYNCIO : Int
  SI_ASYNCIO_defined : Bool
  SI_MESGQ : Int
  SI_SIGIO : Option Int
  SI_TKILL : Option Int
  SI_DETHREAD : Option Int

/-- A proper row of a sub-code table. -/
def row (code : Int) (text : String) : si_code_descriptor := ⟨code, some text⟩

/-- The `{ 0, NULL }` row that ends every sub-code table. -/
def sentinel : si_code_descriptor := ⟨0, none⟩

/-- A row that is compiled in only when its constant is defined. -/
def row_if_defined (c : Option Int) (text : String) : List si_code_descriptor :=
  match c with
  | some v => [row v text]
  | none => []

def sig_ill_codes (P : Platform) : List si_code_descriptor :=
  [ row P.ILL_ILLOPC "ILL_ILLOPC; Illegal opcode",
    row P.ILL_ILLOPN "ILL_ILLOPN; Illegal operand",
    row P.ILL_ILLADR "ILL_ILLADR; Illegal addressing mode",
    row P.ILL_ILLTRP "ILL_ILLTRP; Illegal trap",
    row P.ILL_PRVOPC "ILL_PRVOPC; Privileged opcode",
    row P.ILL_PRVREG "ILL_PRVREG; Privileged register",
    row P.ILL_COPROC "ILL_COPROC; Coprocessor error",
    row P.ILL_BADSTK "ILL_BADSTK; Internal stack error",
    sentinel ]

def sig_fpe_codes (P : Platform) : List si_code_descriptor :=
  [ row P.FPE_INTDIV "FPE_INTDIV; Integer divide by zero",
    row P.FPE_INTOVF "FPE_INTOVF; Integer overflow",
    row P.FPE_FLTDIV "FPE_FLTDIV; Floating-point divide by zero",
    row P.FPE_FLTOVF "FPE_FLTOVF; Floating-point overflow",
    row P.FPE_FLTUND "FPE_FLTUND; Floating-point underflow",
    row P.FPE_FLTRES "FPE_FLTRES; Floating-point inexact result",
    row P.FPE_FLTINV "FPE_FLTINV; Invalid floating-point operation",
    row P.FPE_FLTSUB "FPE_FLTSUB; Subscript out of range",
    sentinel ]

def sig_segv_codes (P : Platform) : List si_code_descriptor :=
  [ row P.SEGV_MAPERR "SEGV_MAPERR; Address not mapped to object",
    row P.SEGV_ACCERR "SEGV_ACCERR; Invalid permissions for mapped object",
    sentinel ]

def sig_bus_codes (P : Platform) : List si_code_descriptor :=
  [ row P.BUS_ADRALN "BUS_ADRALN; Invalid address alignment",
    row P.BUS_ADRERR "BUS_ADRERR; Nonexistent physical address",
    row P.BUS_OBJERR "BUS_OBJERR; Object-specific hardware error",
    sentinel ]

/-- The signal-independent table, consulted first; the rows under `#if defined`
are present when the constant is defined. -/
def sig_any_codes (P : Platform) : List si_code_descriptor :=
  [ row P.SI_USER "SI_USER; sent by kill, sigsend, raise" ]
  ++ row_if_defined P.SI_KERNEL "SI_KERNEL; sent by the kernel from somewhere"
  ++ [ row P.SI_QUEUE "SI_QUEUE; Signal sent by the sigqueue()",
       row P.SI_TIMER "SI_TIMER; Signal generated by expiration of a timer set by timer_settime()",
       row P.SI_ASYNCIO "SI_ASYNCIO; Signal generated by completion of an asynchronous I/O request",
       row P.SI_MESGQ "SI_MESGQ; Signal generated by arrival of a message on an empty message queue" ]
  ++ (if P.SI_ASYNCIO_defined then [row P.SI_ASYNCIO "SI_ASYNCIO; sent by AIO completion"] else [])
  ++ row_if_defined P.SI_SIGIO "SI_SIGIO; sent by queued SIGIO"
  ++ row_if_defined P.SI_TKILL "SI_TKILL; sent by tkill system call"
  ++ row_if_defined P.SI_DETHREAD "SI_DETHREAD; sent by execve() killing subsidiary threads"
  ++ [ sentinel ]

/-- A per-signal table pointer: the table with `USE_UCONTEXT`, `NULL` without. -/
def table_ptr (P : Platform) (t : List si_code_descriptor) : Option (List si_code_descriptor) :=
  if P.USE_UCONTEXT then some t else none

def signal_descriptors (P : Platform) : List signal_descriptor :=
  [ ⟨P.SIGILL,  "SIGILL",  table_ptr P (sig_ill_codes P),  "Illegal instruction"⟩,
    ⟨P.SIGFPE,  "SIGFPE",  table_ptr P (sig_fpe_codes P),  "Floating point exception"⟩,
    ⟨P.SIGSEGV, "SIGSEGV", table_ptr P (sig_segv_codes P), "Segmentation Fault"⟩,
    ⟨P.SIGBUS,  "SIGBUS",  table_ptr P (sig_bus_codes P),  "Bus error (bad memory access)"⟩,
    ⟨P.SIGABRT, "SIGABRT", none,                           "Abort"⟩ ]

/-! ## Fault classifier -/

/-- The `for` loop of `lookup_signal_descriptor` over the rows from index `i` on. -/
def lookup_signal_descriptor_from (signo : Int) : List signal_descriptor → Option signal_descriptor
  | [] => none
  | d :: rest => if d.signo = signo then some d else lookup_signal_descriptor_from signo rest

def lookup_signal_descriptor (P : Platform) (signo : Int) : Option signal_descriptor :=
  lookup_signal_descriptor_from signo (signal_descriptors P)

/-- The `while` loop of `si_code_description_lookup`: `descr_ptr` is the list of
rows from the current one on; `none` is the `NULL` result. -/
def si_code_description_lookup : List si_code_descriptor → Int → Option String
  | [], _ => none
  | d :: rest, si_code =>
    match d.description with
    | none => none
    | some text => if d.code = si_code then some text else si_code_description_lookup rest si_code

def si_code_description (P : Platform) (descr_ptr : Option signal_descriptor) (si_code : Int) :
    Option String :=
  match si_code_description_lookup (sig_any_codes P) si_code with
  | some si_code_str => some si_code_str
  | none =>
    match descr_ptr with
    | some d =>
      match d.codes with
      | some codes => si_code_description_lookup codes si_code
      | none => some "unknown"
    | none => some "unknown"

/-! ## The process, the log and the outside world -/

/-- One argument of a `siginfo_log` call, by conversion: `%d` (`int`), `%x`-like
(`uint`), `%zu` (`size`), `%p` (`ptr`) and `%s` (`str`, `none` being `NULL`). -/
inductive Arg where
  | int (v : Int)
  | uint (v : Nat)
  | size (v : Nat)
  | ptr (p : Nat)
  | str (s : Option String)
deriving DecidableEq, Repr

/-- One call of `siginfo_log`: the format string and its arguments. -/
structure LogCall where
  fmt : String
  args : List Arg
deriving DecidableEq, Repr

/-- The observable state of the process. -/
structure Process where
  /-- Calls of `siginfo_log`, oldest first. -/
  log : List LogCall
  /-- Addresses read through the frame pointer, oldest first. -/
  loads : List Nat
  /-- Signals passed to `sigaction`, oldest first. -/
  sigaction_calls : List Int
  /-- Signals whose disposition is `signal_handler`. -/
  handled : List Int
  /-- Exit status, once `exit` was called. -/
  exit_status : Option Nat
deriving DecidableEq, Repr

/-- The process before anything was logged or installed. -/
def Process.init : Process := ⟨[], [], [], [], none⟩

/-- The `Dl_info` filled in by `dladdr`; a null pointer is `none` or `0`. -/
structure Dl_info where
  dli_fname : Option String
  dli_fbase : Nat
  dli_sname : Option String
  dli_saddr : Nat
deriving DecidableEq, Repr

/-- The `siginfo_t` fields the report reads. -/
structure siginfo_t where
  si_signo : Int
  si_errno : Int
  si_code : Int
  si_addr : Nat
deriving DecidableEq, Repr

/-- The `ucontext_t` passed to the handler: the register file
`SIGINFO_REGISTER(ucontext, index)`. -/
structure ucontext_t where
  gregs : Nat → Nat

/-- The C library, the kernel and the memory, as the handler meets them. -/
structure Env where
  /-- The pointer-sized word stored at an address; every address is readable. -/
  mem : Nat → Nat
  /-- Result of `dladdr(ip, &dlinfo)`: `none` when it returns 0. -/
  dladdr : Nat → Option Dl_info
  /-- Result of `__cxa_demangle(name, NULL, 0, &status)`: the status and the returned pointer. -/
  cxa_demangle : Option String → Int × Option String
  /-- Return addresses of the current call stack, innermost first. -/
  call_stack : List Nat
  /-- The string `backtrace_symbols` renders for an address; the call is taken
  to succeed. -/
  backtrace_symbol : Nat → String
  /-- Outcome of `sigaction` for a signal: `none` on success, `some errno` when it returns -1. -/
  sigaction_errno : Int → Option Int
  strerror : Int → String

def siginfo_log (fmt : String) (args : List Arg) (s : Process) : Process :=
  { s with log := s.log ++ [⟨fmt, args⟩] }

/-- Conversion to `int` of a value outside its range: the value modulo 2^32 in
[-2^31, 2^31). -/
def to_int (v : Int) : Int := (v + 2 ^ 31) % 2 ^ 32 - 2 ^ 31

/-! ## Preprocessor selections -/

def SIGINFO_IP_REG (P : Platform) : Nat :=
  if P.REG_RIP_defined then P.REG "RIP" else P.REG "EIP"

def SIGINFO_BP_REG (P : Platform) : Nat :=
  if P.REG_RIP_defined then P.REG "RBP" else P.REG "EBP"

def SIGINFO_REGFORMAT (P : Platform) : String :=
  if P.REG_RIP_defined then "%016llx" else if P.REG_EIP_defined then "%08lx" else "%x"

/-- The size in bytes of `UINT_PTR_TYPE`: `unsigned long long` with `REG_RIP`,
`unsigned long` with `REG_EIP`, `unsigned int` otherwise. -/
def sizeof_UINT_PTR_TYPE (P : Platform) : Nat :=
  if P.REG_RIP_defined then P.sizeof_unsigned_long_long
  else if P.REG_EIP_defined then P.sizeof_unsigned_long
  else P.sizeof_unsigned_int

/-- The cast `(UINT_PTR_TYPE)v` of a register value: the value modulo 2 to the
width of the type. -/
def to_UINT_PTR_TYPE (P : Platform) (v : Nat) : Nat := v % 2 ^ (8 * sizeof_UINT_PTR_TYPE P)

/-- Whether the generic `dump_stack` is the one compiled: requested by the build,
or no known instruction pointer register, or no `USE_UCONTEXT`. -/
def stack_generic (P : Platform) : Bool :=
  P.SIGINFO_STACK_GENERIC || !(P.REG_RIP_defined || P.REG_EIP_defined) || !P.USE_UCONTEXT

def SIGINFO_MAX_BT_FRAMES : Nat := 20

/-! ## Stack walk -/

/-- The `for` loop of the generic `dump_stack` over the addresses from index `i` on. -/
def dump_stack_generic_loop (E : Env) : List Nat → Nat → Process → Process
  | [], _, s => s
  | a :: rest, i, s =>
    dump_stack_generic_loop E rest (i + 1)
      (siginfo_log "%2zu: %s" [.size i, .str (some (E.backtrace_symbol a))] s)

/-- The `dump_stack` compiled under `SIGINFO_STACK_GENERIC`; `backtrace` fills
at most `SIGINFO_MAX_BT_FRAMES` addresses. -/
def dump_stack_generic (E : Env) (s : Process) : Process :=
  let s := siginfo_log "Stack trace (generic):" [] s
  let bt := E.call_stack.take SIGINFO_MAX_BT_FRAMES
  let s := dump_stack_generic_loop E bt 0 s
  siginfo_log "End of stack trace" [] s

/-- The symbol name shown for a frame: the raw name, or the demangled one when
demangling is compiled in and succeeds. -/
def display_name (P : Platform) (E : Env) (dli_sname : Option String) : Option String :=
  if P.SIGINFO_CPP_DEMANGLE then
    let r := E.cxa_demangle dli_sname
    if r.1 = 0 ∧ r.2 ≠ none then r.2 else dli_sname
  else dli_sname

/-- The line logged for a frame whose address `dladdr` resolved.  The cast
`(UINT_PTR_TYPE)ip` keeps the value of the pointer: this walk is compiled only
with `REG_RIP` or `REG_EIP`, where the type is as wide as a pointer. -/
def frame_line (P : Platform) (E : Env) (frame : Int) (ip : Nat) (dlinfo : Dl_info) (s : Process) :
    Process :=
  siginfo_log ("%2d: 0x" ++ SIGINFO_REGFORMAT P ++ " <%s+%d> (%s)")
    [.int frame, .uint ip, .str (display_name P E dlinfo.dli_sname),
     .int (to_int ((ip : Int) - (dlinfo.dli_saddr : Int))), .str dlinfo.dli_fname] s

/-- The line logged for a frame whose address `dladdr` did not resolve. -/
def dladdr_failed_line (frame : Int) (ip : Nat) (s : Process) : Process :=
  siginfo_log "%2d: [dladdr failed for %p]" [.int frame, .ptr ip] s

/-- The reads of the loop increment `ip = bp[1], bp = (void **)bp[0]`. -/
def record_loads (P : Platform) (bp : Nat) (s : Process) : Process :=
  { s with loads := s.loads ++ [bp + P.sizeof_ptr, bp] }

/-- The `for` loop of the context-based `dump_stack`, entered at its condition
with the current `frame`, `ip` and `bp`.  The first argument bounds the number
of iterations of the body; `none` means the bound was reached with the loop
still running.  `frame` is a mathematical integer: the loop is not followed
past `INT_MAX` iterations, where `frame++` is undefined in C. -/
def dump_stack_loop (P : Platform) (E : Env) : Nat → Int → Nat → Nat → Process → Option Process
  | 0, _, ip, bp, s => if bp ≠ 0 ∧ ip ≠ 0 then none else some s
  | fuel + 1, frame, ip, bp, s =>
    if bp ≠ 0 ∧ ip ≠ 0 then
      match E.dladdr ip with
      | none =>
        dump_stack_loop P E fuel (frame + 1) (E.mem (bp + P.sizeof_ptr)) (E.mem bp)
          (record_loads P bp (dladdr_failed_line frame ip s))
      | some dlinfo =>
        if dlinfo.dli_sname = some "main" then some (frame_line P E frame ip dlinfo s)
        else
          dump_stack_loop P E fuel (frame + 1) (E.mem (bp + P.sizeof_ptr)) (E.mem bp)
            (record_loads P bp (frame_line P E frame ip dlinfo s))
    else some s

/-- The same `for` loop, observed after at most the given number of iterations
of the body: the process state reached by then, and whether the loop has been
left.  It shows what has been logged also when the loop is still running. -/
def dump_stack_progress (P : Platform) (E : Env) :
    Nat → Int → Nat → Nat → Process → Process × Bool
  | 0, _, ip, bp, s => if bp ≠ 0 ∧ ip ≠ 0 then (s, false) else (s, true)
  | fuel + 1, frame, ip, bp, s =>
    if bp ≠ 0 ∧ ip ≠ 0 then
      match E.dladdr ip with
      | none =>
        dump_stack_progress P E fuel (frame + 1) (E.mem (bp + P.sizeof_ptr)) (E.mem bp)
          (record_loads P bp (dladdr_failed_line frame ip s))
      | some dlinfo =>
        if dlinfo.dli_sname = some "main" then (frame_line P E frame ip dlinfo s, true)
        else
          dump_stack_progress P E fuel (frame + 1) (E.mem (bp + P.sizeof_ptr)) (E.mem bp)
            (record_loads P bp (frame_line P E frame ip dlinfo s))
    else (s, true)

/-- The `dump_stack` compiled without `SIGINFO_STACK_GENERIC`. -/
def dump_stack_context (P : Platform) (E : Env) (fuel : Nat) (ucontext : ucontext_t)
    (s : Process) : Option Process :=
  let ip := ucontext.gregs (SIGINFO_IP_REG P)
  let bp := ucontext.gregs (SIGINFO_BP_REG P)
  let s := siginfo_log "Stack trace:" [] s
  match dump_stack_loop P E fuel 0 ip bp s with
  | none => none
  | some s => some (siginfo_log "End of stack trace" [] s)

/-- The `dump_stack` the build selects. -/
def dump_stack (P : Platform) (E : Env) (fuel : Nat) (ucontext : ucontext_t) (s : Process) :
    Option Process :=
  if stack_generic P then some (dump_stack_generic E s)
  else dump_stack_context P E fuel ucontext s

/-! ## Classification and register report -/

def dump_siginfo (P : Platform) (signo : Int) (info : siginfo_t) (s : Process) : Process :=
  let descr_ptr := lookup_signal_descriptor P signo
  let s :=
    match descr_ptr with
    | some d => siginfo_log "%s! (%s)" [.str (some d.msg), .str (some d.descr)] s
    | none => siginfo_log "Unknown bad signal %d catched!" [.int signo] s
  if P.USE_UCONTEXT then
    let s := siginfo_log "info.si_signo = %d" [.int info.si_signo] s
    let s := siginfo_log "info.si_errno = %d" [.int info.si_errno] s
    let s := siginfo_log "info.si_code  = %d (%s)"
      [.int info.si_code, .str (si_code_description P descr_ptr info.si_code)] s
    siginfo_log "info.si_addr  = %p" [.ptr info.si_addr] s
  else s

/-- The register macros named by the `case` labels of `register_name`, in order. -/
def register_name_cases : List String :=
  ["GS", "FS", "ES", "DS", "EDI", "ESI", "EBP", "ESP", "EBX", "EDX", "ECX", "EAX",
   "TRAPNO", "ERR", "EIP", "CS", "EFL", "UESP", "SS"]

def register_name (P : Platform) (i : Nat) : Option String :=
  if P.REG_EIP_defined then register_name_cases.find? (fun x => P.REG x = i) else none

/-- The text `snprintf(buffer, sizeof(buffer), "reg[%02d]", (int)index)` leaves in
the 64-byte buffer. -/
def reg_label (index : Nat) : String :=
  let v := to_int index
  let digits := if 0 ≤ v ∧ v < 10 then "0" ++ toString v else toString v
  ("reg[" ++ digits ++ "]").take 63

/-- The `for` loop of `dump_registers` with `n` indexes left, the next being `index`. -/
def dump_registers_loop (P : Platform) (ucontext : ucontext_t) : Nat → Nat → Process → Process
  | 0, _, s => s
  | n + 1, index, s =>
    let name :=
      match register_name P index with
      | some name => name
      | none => reg_label index
    dump_registers_loop P ucontext n (index + 1)
      (siginfo_log ("%6s = 0x" ++ SIGINFO_REGFORMAT P)
        [.str (some name), .uint (to_UINT_PTR_TYPE P (ucontext.gregs index))] s)

def dump_registers (P : Platform) (ucontext : ucontext_t) (s : Process) : Process :=
  dump_registers_loop P ucontext P.NGREG 0 s

/-! ## Handler and registration -/

/-- The call `exit(status)`: the process ends with the low eight bits of `status`. -/
def exit (status : Int) (s : Process) : Process :=
  { s with exit_status := some (status % 256).toNat }

/-- The handler; `none` means the stack walk was still running after `fuel`
iterations, so that `exit` was not reached. -/
def signal_handler (P : Platform) (E : Env) (fuel : Nat) (signum : Int) (info : siginfo_t)
    (ptr : ucontext_t) (s : Process) : Option Process :=
  let s := dump_siginfo P signum info s
  let s := if P.USE_UCONTEXT then dump_registers P ptr s else s
  match dump_stack P E fuel ptr s with
  | none => none
  | some s => some (exit (-1) s)

/-- The `for` loop of `setup_siginfo` over the descriptors from index `i` on;
the first component is the value returned. -/
def setup_siginfo_loop (E : Env) : List signal_descriptor → Process → Int × Process
  | [], s => (1, s)
  | d :: rest, s =>
    let s := { s with sigaction_calls := s.sigaction_calls ++ [d.signo] }
    match E.sigaction_errno d.signo with
    | some errno =>
      (0, siginfo_log "sigaction failed for signal %d. errno is %d (%s)"
            [.int d.signo, .int errno, .str (some (E.strerror errno))] s)
    | none => setup_siginfo_loop E rest { s with handled := s.handled ++ [d.signo] }

def setup_siginfo (P : Platform) (E : Env) (s : Process) : Int × Process :=
  setup_siginfo_loop E (signal_descriptors P) s

/-! ## A concrete platform -/

/-- Linux on x86-64 with glibc: the header values, context-based walk, no demangling. -/
def linux_x86_64 : Platform where
  USE_UCONTEXT := true
  SIGINFO_STACK_GENERIC := false
  SIGINFO_CPP_DEMANGLE := false
  REG_RIP_defined := true
  REG_EIP_defined := false
  REG := fun x => if x = "RIP" then 16 else if x = "RBP" then 10 else 0
  NGREG := 23
  sizeof_ptr := 8
  sizeof_unsigned_int := 4
  sizeof_unsigned_long := 8
  sizeof_unsigned_long_long := 8
  SIGILL := 4
  SIGFPE := 8
  SIGSEGV := 11
  SIGBUS := 7
  SIGABRT := 6
  ILL_ILLOPC := 1
  ILL_ILLOPN := 2
  ILL_ILLADR := 3
  ILL_ILLTRP := 4
  ILL_PRVOPC := 5
  ILL_PRVREG := 6
  ILL_COPROC := 7
  ILL_BADSTK := 8
  FPE_INTDIV := 1
  FPE_INTOVF := 2
  FPE_FLTDIV := 3
  FPE_FLTOVF := 4
  FPE_FLTUND := 5
  FPE_FLTRES := 6
  FPE_FLTINV := 7
  FPE_FLTSUB := 8
  SEGV_MAPERR := 1
  SEGV_ACCERR := 2
  BUS_ADRALN := 1
  BUS_ADRERR := 2
  BUS_OBJERR := 3
  SI_USER := 0
  SI_KERNEL := some 128
  SI_QUEUE := -1
  SI_TIMER := -2
  SI_ASYNCIO := -4
  SI_ASYNCIO_defined := true
  SI_MESGQ := -3
  SI_SIGIO := some (-5)
  SI_TKILL := some (-6)
  SI_DETHREAD := some (-7)

/-! ## Sample inputs -/

/-- A register file of `linux_x86_64` with the given instruction pointer
(`REG_RIP`, 16) and frame pointer (`REG_RBP`, 10). -/
def context_at (ip bp : Nat) : ucontext_t :=
  ⟨fun i => if i = 16 then ip else if i = 10 then bp else 0⟩

/-- Symbols of a small program: `crash_abort` at 0x401100, `main` at 0x401200,
an unnamed region from 0x401300, nothing known elsewhere. -/
def sample_dladdr (ip : Nat) : Option Dl_info :=
  if 0x401100 ≤ ip ∧ ip < 0x401200 then
    some ⟨some "/usr/bin/daemon", 0x400000, some "crash_abort", 0x401100⟩
  else if 0x401200 ≤ ip ∧ ip < 0x401300 then
    some ⟨some "/usr/bin/daemon", 0x400000, some "main", 0x401200⟩
  else if 0x401300 ≤ ip ∧ ip < 0x402000 then
    some ⟨some "/usr/bin/daemon", 0x400000, none, 0⟩
  else none

/-- A stack of three frames: the frame at 0x7000 returns into `main` (0x401250),
the frame of `main` at 0x7010 returns to 0x500000, the frame at 0x7020 ends the
chain with a null saved frame pointer and a null return address. -/
def sample_mem (a : Nat) : Nat :=
  if a = 0x7000 then 0x7010
  else if a = 0x7008 then 0x401250
  else if a = 0x7010 then 0x7020
  else if a = 0x7018 then 0x500000
  else 0

/-- An environment with the sample stack and symbols, where every `sigaction`
succeeds. -/
def sample_env : Env where
  mem := sample_mem
  dladdr := sample_dladdr
  cxa_demangle := fun _ => (-2, none)
  call_stack := [0x401136, 0x401250, 0x500000]
  backtrace_symbol := fun _ => "/usr/bin/daemon() [0x401136]"
  sigaction_errno := fun _ => none
  strerror := fun _ => "Invalid argument"

/-- The sample environment, except that `sigaction` fails with `EINVAL` (22)
for signal 11. -/
def sigsegv_refused_env : Env :=
  { sample_env with sigaction_errno := fun signo => if signo = 11 then some 22 else none }

/-- A stack whose middle frame returns to an address without symbols: the frame
at 0x7000 (entered from `crash_abort`) returns to 0x500000, the frame at 0x7010
returns into `main` (0x401250), and the frame of `main` at 0x7020 has a caller
frame at 0x7030 and the return address 0x500000. -/
def gap_mem (a : Nat) : Nat :=
  if a = 0x7000 then 0x7010
  else if a = 0x7008 then 0x500000
  else if a = 0x7010 then 0x7020
  else if a = 0x7018 then 0x401250
  else if a = 0x7020 then 0x7030
  else if a = 0x7028 then 0x500000
  else 0

def gap_env : Env := { sample_env with mem := gap_mem }

/-- The process state of `dump_stack` on `gap_env`, started at `crash_abort`
(0x401136) with frame pointer 0x7000, when it has logged the header and frame 0
and has read the caller frame. -/
def gap_after_first_frame : Process :=
  { Process.init with
    log := [⟨"Stack trace:", []⟩,
            ⟨"%2d: 0x%016llx <%s+%d> (%s)",
              [.int 0, .uint 0x401136, .str (some "crash_abort"), .int 54,
               .str (some "/usr/bin/daemon")]⟩],
    loads := [0x7008, 0x7000] }

/-- A chain of 21 frames at 0x7000, 0x7010, ..., each returning to 0x401136; the
saved frame pointer of the last one is null. -/
def deep_chain_mem (a : Nat) : Nat :=
  if 0x7000 ≤ a ∧ a < 0x7000 + 16 * 20 ∧ a % 16 = 0 then a + 16
  else if 0x7000 ≤ a ∧ a < 0x7000 + 16 * 21 ∧ a % 16 = 8 then 0x401136
  else 0

def deep_chain_env : Env := { sample_env with mem := deep_chain_mem }

/-- A frame at 0x7000 whose saved frame pointer points back to itself and whose
return address is 0x401136. -/
def cyclic_mem (a : Nat) : Nat :=
  if a = 0x7000 then 0x7000 else if a = 0x7008 then 0x401136 else 0

def cyclic_env : Env := { sample_env with mem := cyclic_mem }

/-! ## Reading a sub-code table -/

/-- The entries of a sub-code table, as pairs of code and text: the rows before
the first row with a null description. -/
def table_entries : List si_code_descriptor → List (Int × String)
  | [] => []
  | d :: rest =>
    match d.description with
    | none => []
    | some text => (d.code, text) :: table_entries rest

/-- The text of the first entry with the given code, if there is one. -/
def first_entry_text (entries : List (Int × String)) (c : Int) : Option String :=
  (entries.find? (fun e => e.1 = c)).map (fun e => e.2)

/-! ## Theorems: fault classifier -/

theorem si_code_description_lookup_eq (t : List si_code_descriptor) (c : Int) :
    si_code_description_lookup t c = first_entry_text (table_entries t) c := by
  induction t with
  | nil => rfl
  | cons d rest ih =>
    unfold si_code_description_lookup table_entries
    cases hd : d.description with
    | none => simp [first_entry_text]
    | some text =>
      by_cases hc : d.code = c
      · simp [first_entry_text, hc]
      · simp only [hc, if_false, ih]
        simp [first_entry_text, List.find?_cons, hc]

theorem lookup_signal_descriptor_from_mem (signo : Int) (l : List signal_descriptor)
    (d : signal_descriptor) (h : lookup_signal_descriptor_from signo l = some d) :
    d ∈ l ∧ d.signo = signo := by
  induction l with
  | nil => simp [lookup_signal_descriptor_from] at h
  | cons a rest ih =>
    unfold lookup_signal_descriptor_from at h
    by_cases ha : a.signo = signo
    · simp only [ha, if_true, Option.some.injEq] at h
      subst h
      exact ⟨List.mem_cons_self _ _, ha⟩
    · simp only [ha, if_false] at h
      exact ⟨List.mem_cons_of_mem _ (ih h).1, (ih h).2⟩

theorem lookup_signal_descriptor_from_none (signo : Int) (l : List signal_descriptor)
    (h : ∀ d ∈ l, d.signo ≠ signo) : lookup_signal_descriptor_from signo l = none := by
  induction l with
  | nil => rfl
  | cons a rest ih =>
    unfold lookup_signal_descriptor_from
    have ha : a.signo ≠ signo := h a (List.mem_cons_self _ _)
    simp only [ha, if_false]
    exact ih (fun d hd => h d (List.mem_cons_of_mem _ hd))

theorem lookup_signal_descriptor_from_nodup (l : List signal_descriptor)
    (hnd : (l.map (fun d => d.signo)).Nodup) (d : signal_descriptor) (hd : d ∈ l) :
    lookup_signal_descriptor_from d.signo l = some d := by
  induction l with
  | nil => simp at hd
  | cons a rest ih =>
    unfold lookup_signal_descriptor_from
    rw [List.map_cons, List.nodup_cons] at hnd
    rcases List.mem_cons.mp hd with h | h
    · simp [h]
    · have hne : a.signo ≠ d.signo := by
        intro heq
        exact hnd.1 (heq ▸ List.mem_map_of_mem (fun d => d.signo) h)
      simp only [hne, if_false]
      exact ih hnd.2 h

/-- C1: on Linux the sub-code 3 (`SEGV_BNDERR`) is in neither the origin table
nor the SIGSEGV table, and for the SIGSEGV descriptor `si_code_description`
returns the null pointer for it, not the text "unknown"; `dump_siginfo` hands
that null pointer to the `%s` of its sub-code line. -/
theorem si_code_description_null_for_unlisted_code :
    lookup_signal_descriptor linux_x86_64 11
        = some ⟨11, "SIGSEGV", some (sig_segv_codes linux_x86_64), "Segmentation Fault"⟩
      ∧ first_entry_text (table_entries (sig_any_codes linux_x86_64)) 3 = none
      ∧ first_entry_text (table_entries (sig_segv_codes linux_x86_64)) 3 = none
      ∧ si_code_description linux_x86_64 (lookup_signal_descriptor linux_x86_64 11) 3 = none
      ∧ si_code_description linux_x86_64 (lookup_signal_descriptor linux_x86_64 11) 3
          ≠ some "unknown"
      ∧ (⟨"info.si_code  = %d (%s)", [.int 3, .str none]⟩ : LogCall)
          ∈ (dump_siginfo linux_x86_64 11 ⟨11, 0, 3, 123⟩ Process.init).log := by
  refine ⟨by decide, by decide, by decide, by decide, by decide, by decide⟩

/-- C3: when the five signal numbers are pairwise different, for a signal that
is one of SIGILL, SIGFPE, SIGSEGV, SIGBUS, SIGABRT `lookup_signal_descriptor`
returns the one table entry whose number is the signal and `dump_siginfo` first
logs that entry's "msg! (name)" line; for every other number it returns null and
`dump_siginfo` first logs the unknown-signal line with that number. -/
theorem lookup_signal_descriptor_exact (P : Platform)
    (hnd : [P.SIGILL, P.SIGFPE, P.SIGSEGV, P.SIGBUS, P.SIGABRT].Nodup)
    (signo : Int) (info : siginfo_t) (s : Process) :
    (signo ∈ [P.SIGILL, P.SIGFPE, P.SIGSEGV, P.SIGBUS, P.SIGABRT] →
      ∃ d, d ∈ signal_descriptors P ∧ d.signo = signo ∧
        (∀ d1 ∈ signal_descriptors P, d1.signo = signo → d1 = d) ∧
        lookup_signal_descriptor P signo = some d ∧
        ∃ rest, (dump_siginfo P signo info s).log
          = s.log ++ ⟨"%s! (%s)", [.str (some d.msg), .str (some d.descr)]⟩ :: rest) ∧
    (signo ∉ [P.SIGILL, P.SIGFPE, P.SIGSEGV, P.SIGBUS, P.SIGABRT] →
        lookup_signal_descriptor P signo = none ∧
        ∃ rest, (dump_siginfo P signo info s).log
          = s.log ++ ⟨"Unknown bad signal %d catched!", [.int signo]⟩ :: rest) := by
  have hmap : (signal_descriptors P).map (fun d => d.signo)
      = [P.SIGILL, P.SIGFPE, P.SIGSEGV, P.SIGBUS, P.SIGABRT] := rfl
  have hnd1 : ((signal_descriptors P).map (fun d => d.signo)).Nodup := hmap ▸ hnd
  have hfound : ∀ d ∈ signal_descriptors P, d.signo = signo →
      lookup_signal_descriptor P signo = some d := by
    intro d hd hs
    subst hs
    exact lookup_signal_descriptor_from_nodup _ hnd1 d hd
  constructor
  · intro hs
    rw [← hmap] at hs
    obtain ⟨d, hd, hds⟩ := List.mem_map.mp hs
    have hl := hfound d hd hds
    refine ⟨d, hd, hds, ?_, hl, ?_⟩
    · intro d1 hd1 hds1
      have h1 := hfound d1 hd1 hds1
      rw [hl] at h1
      exact (Option.some.inj h1).symm
    · unfold dump_siginfo
      rw [hl]
      cases P.USE_UCONTEXT <;> simp [siginfo_log]
  · intro hs
    have hl : lookup_signal_descriptor P signo = none := by
      apply lookup_signal_descriptor_from_none
      intro d hd heq
      apply hs
      rw [← hmap, ← heq]
      exact List.mem_map_of_mem (fun d => d.signo) hd
    refine ⟨hl, ?_⟩
    unfold dump_siginfo
    rw [hl]
    cases P.USE_UCONTEXT <;> simp [siginfo_log]

/-- Witness of C3: SIGSEGV (11) on Linux, whose signal numbers 4, 8, 11, 7, 6 are
pairwise different. -/
theorem lookup_signal_descriptor_exact_witness :
    ∃ d, d ∈ signal_descriptors linux_x86_64 ∧ d.signo = 11 ∧
      (∀ d1 ∈ signal_descriptors linux_x86_64, d1.signo = 11 → d1 = d) ∧
      lookup_signal_descriptor linux_x86_64 11 = some d ∧
      ∃ rest, (dump_siginfo linux_x86_64 11 ⟨11, 0, 1, 123⟩ Process.init).log
        = Process.init.log ++ ⟨"%s! (%s)", [.str (some d.msg), .str (some d.descr)]⟩ :: rest :=
  (lookup_signal_descriptor_exact linux_x86_64 (by decide) 11 ⟨11, 0, 1, 123⟩ Process.init).1
    (by decide)

/-- C4: `si_code_description` looks in the origin table first.  A code with an
entry in `sig_any_codes` gives the text of the first such entry, whatever the
descriptor; a code without one gives the text of the first entry with that code
in the descriptor's own table when there is one; and without a descriptor, or
with a descriptor that has no table, it gives "unknown". -/
theorem si_code_description_two_tier (P : Platform) (descr_ptr : Option signal_descriptor)
    (c : Int) :
    (∀ text, first_entry_text (table_entries (sig_any_codes P)) c = some text →
        si_code_description P descr_ptr c = some text) ∧
    (first_entry_text (table_entries (sig_any_codes P)) c = none →
      (∀ d codes text, descr_ptr = some d → d.codes = some codes →
          first_entry_text (table_entries codes) c = some text →
          si_code_description P descr_ptr c = some text) ∧
      ((descr_ptr = none ∨ ∃ d, descr_ptr = some d ∧ d.codes = none) →
          si_code_description P descr_ptr c = some "unknown")) := by
  refine ⟨?_, ?_⟩
  · intro text h
    unfold si_code_description
    rw [si_code_description_lookup_eq, h]
  · intro h
    refine ⟨?_, ?_⟩
    · intro d codes text hd hc ht
      unfold si_code_description
      rw [si_code_description_lookup_eq, h, hd]
      simp only [hc]
      rw [si_code_description_lookup_eq, ht]
    · intro hno
      unfold si_code_description
      rw [si_code_description_lookup_eq, h]
      rcases hno with hn | ⟨d, hd, hc⟩
      · rw [hn]
      · rw [hd]
        simp only [hc]

/-- Witness of C4: the SIGSEGV descriptor with `SEGV_MAPERR` (1) on Linux. -/
theorem si_code_description_two_tier_witness :
    si_code_description linux_x86_64
        (some ⟨11, "SIGSEGV", some (sig_segv_codes linux_x86_64), "Segmentation Fault"⟩) 1
      = some "SEGV_MAPERR; Address not mapped to object" :=
  ((si_code_description_two_tier linux_x86_64
      (some ⟨11, "SIGSEGV", some (sig_segv_codes linux_x86_64), "Segmentation Fault"⟩) 1).2
    (by decide)).1 _ _ _ rfl rfl (by decide)

/-! ## Theorems: context-based stack walk -/

/-- The walk only appends: run from any process state it yields that state
extended by what the walk run from the initial state logs and reads. -/
theorem dump_stack_loop_append (P : Platform) (E : Env) (fuel : Nat) (frame : Int)
    (ip bp : Nat) (s : Process) :
    dump_stack_loop P E fuel frame ip bp s
      = (dump_stack_loop P E fuel frame ip bp Process.init).map
          (fun r => { s with log := s.log ++ r.log, loads := s.loads ++ r.loads }) := by
  induction fuel generalizing frame ip bp s with
  | zero =>
    unfold dump_stack_loop
    by_cases h : bp ≠ 0 ∧ ip ≠ 0
    · rw [if_pos h, if_pos h]; rfl
    · rw [if_neg h, if_neg h]; simp [Process.init]
  | succ n ih =>
    unfold dump_stack_loop
    by_cases h : bp ≠ 0 ∧ ip ≠ 0
    · rw [if_pos h, if_pos h]
      cases hdl : E.dladdr ip with
      | none =>
        simp only []
        rw [ih (frame + 1) _ _ (record_loads P bp (dladdr_failed_line frame ip s)),
          ih (frame + 1) _ _ (record_loads P bp (dladdr_failed_line frame ip Process.init))]
        simp [Option.map_map, Function.comp_def, record_loads, dladdr_failed_line, siginfo_log,
          Process.init, List.append_assoc]
      | some dlinfo =>
        simp only []
        by_cases hm : dlinfo.dli_sname = some "main"
        · simp [hm, frame_line, siginfo_log, Process.init]
        · simp only [hm, if_false]
          rw [ih (frame + 1) _ _ (record_loads P bp (frame_line P E frame ip dlinfo s)),
            ih (frame + 1) _ _ (record_loads P bp (frame_line P E frame ip dlinfo Process.init))]
          simp [Option.map_map, Function.comp_def, record_loads, frame_line, siginfo_log,
            Process.init, List.append_assoc]
    · rw [if_neg h, if_neg h]; simp [Process.init]

/-- C7: started with a null frame pointer the context-based `dump_stack` logs the
header line and the closing line and nothing else, reads no memory through the
frame pointer, and does so whatever the instruction pointer, the memory and the
iteration bound. -/
theorem dump_stack_null_frame_pointer (P : Platform) (E : Env) (fuel : Nat)
    (ucontext : ucontext_t) (s : Process)
    (hbp : ucontext.gregs (SIGINFO_BP_REG P) = 0) :
    dump_stack_context P E fuel ucontext s
      = some { s with log := s.log ++ [⟨"Stack trace:", []⟩, ⟨"End of stack trace", []⟩] } := by
  unfold dump_stack_context
  cases fuel <;> simp [dump_stack_loop, hbp, siginfo_log]

/-- Witness of C7: instruction pointer 0x401136, frame pointer null. -/
theorem dump_stack_null_frame_pointer_witness :
    dump_stack_context linux_x86_64 sample_env 0 (context_at 0x401136 0) Process.init
      = some { Process.init with
          log := Process.init.log ++ [⟨"Stack trace:", []⟩, ⟨"End of stack trace", []⟩] } :=
  dump_stack_null_frame_pointer linux_x86_64 sample_env 0 (context_at 0x401136 0) Process.init
    (by decide)

/-- The bounded run and the observed run agree: the loop has returned within
the bound exactly when the observed run has left the loop, with the same state. -/
theorem dump_stack_loop_eq_progress (P : Platform) (E : Env) (fuel : Nat) (frame : Int)
    (ip bp : Nat) (s : Process) :
    dump_stack_loop P E fuel frame ip bp s
      = if (dump_stack_progress P E fuel frame ip bp s).2 = true
        then some (dump_stack_progress P E fuel frame ip bp s).1 else none := by
  induction fuel generalizing frame ip bp s with
  | zero =>
    rw [dump_stack_loop, dump_stack_progress]
    by_cases h : bp ≠ 0 ∧ ip ≠ 0
    · rw [if_pos h, if_pos h]; simp
    · rw [if_neg h, if_neg h]; simp
  | succ n ih =>
    rw [dump_stack_loop, dump_stack_progress]
    by_cases h : bp ≠ 0 ∧ ip ≠ 0
    · rw [if_pos h, if_pos h]
      cases hdl : E.dladdr ip with
      | none => exact ih _ _ _ _
      | some dlinfo =>
        by_cases hm : dlinfo.dli_sname = some "main"
        · simp [hm]
        · simp only [hm, if_false]
          exact ih _ _ _ _
    · rw [if_neg h, if_neg h]; simp

/-- C8: when `dladdr` fails for the instruction address of the frame numbered
`k`, one iteration of the walk logs exactly one line, with the failure marker,
that address and `k`, and reads the two words at the frame pointer, whether or
not the walk ends later; the walk then goes on with the caller (instruction
address word 1, frame pointer word 0 at the frame pointer) as frame `k + 1`;
and what it logs and reads after the marker is what the walk from the caller
logs and reads, ending exactly when that walk ends. -/
theorem dladdr_failure_recovered (P : Platform) (E : Env) (fuel : Nat) (k : Int)
    (ip bp : Nat) (s : Process) (hbp : bp ≠ 0) (hip : ip ≠ 0) (hfail : E.dladdr ip = none) :
    (dump_stack_progress P E 1 k ip bp s).1
      = { s with
          log := s.log ++ [⟨"%2d: [dladdr failed for %p]", [.int k, .ptr ip]⟩],
          loads := s.loads ++ [bp + P.sizeof_ptr, bp] }
    ∧ dump_stack_progress P E (fuel + 1) k ip bp s
      = dump_stack_progress P E fuel (k + 1) (E.mem (bp + P.sizeof_ptr)) (E.mem bp)
          { s with
            log := s.log ++ [⟨"%2d: [dladdr failed for %p]", [.int k, .ptr ip]⟩],
            loads := s.loads ++ [bp + P.sizeof_ptr, bp] }
    ∧ dump_stack_loop P E (fuel + 1) k ip bp s
      = (dump_stack_loop P E fuel (k + 1) (E.mem (bp + P.sizeof_ptr)) (E.mem bp) Process.init).map
          (fun rest =>
            { s with
              log := s.log ++ ⟨"%2d: [dladdr failed for %p]", [.int k, .ptr ip]⟩ :: rest.log,
              loads := s.loads ++ (bp + P.sizeof_ptr) :: bp :: rest.loads }) := by
  have hstep : ∀ n, dump_stack_progress P E (n + 1) k ip bp s
      = dump_stack_progress P E n (k + 1) (E.mem (bp + P.sizeof_ptr)) (E.mem bp)
          { s with
            log := s.log ++ [⟨"%2d: [dladdr failed for %p]", [.int k, .ptr ip]⟩],
            loads := s.loads ++ [bp + P.sizeof_ptr, bp] } := by
    intro n
    rw [dump_stack_progress, if_pos ⟨hbp, hip⟩]
    simp only [hfail]
    rfl
  refine ⟨?_, hstep fuel, ?_⟩
  · rw [hstep 0, dump_stack_progress]
    split <;> rfl
  · rw [dump_stack_loop, if_pos ⟨hbp, hip⟩]
    simp only [hfail]
    rw [dump_stack_loop_append]
    simp [record_loads, dladdr_failed_line, siginfo_log, List.append_assoc]

/-- Witness of C8: on the stack with the unresolved middle frame, `dump_stack`
started in `crash_abort` reaches frame 1 at the address 0x500000 with the state
`gap_after_first_frame`; there the marker is logged, and the walk goes on to
frame 2, the frame of `main`, whose line follows the marker. -/
theorem dladdr_failure_recovered_witness :
    dump_stack_context linux_x86_64 gap_env 3 (context_at 0x401136 0x7000) Process.init
      = (dump_stack_loop linux_x86_64 gap_env 2 1 0x500000 0x7010 gap_after_first_frame).map
          (siginfo_log "End of stack trace" [])
    ∧ (dump_stack_progress linux_x86_64 gap_env 1 1 0x500000 0x7010 gap_after_first_frame).1
      = { gap_after_first_frame with
          log := gap_after_first_frame.log
            ++ [⟨"%2d: [dladdr failed for %p]", [.int 1, .ptr 0x500000]⟩],
          loads := gap_after_first_frame.loads ++ [0x7018, 0x7010] }
    ∧ dump_stack_loop linux_x86_64 gap_env 2 1 0x500000 0x7010 gap_after_first_frame
      = some { gap_after_first_frame with
          log := gap_after_first_frame.log
            ++ [⟨"%2d: [dladdr failed for %p]", [.int 1, .ptr 0x500000]⟩,
                ⟨"%2d: 0x%016llx <%s+%d> (%s)",
                  [.int 2, .uint 0x401250, .str (some "main"), .int 80,
                   .str (some "/usr/bin/daemon")]⟩],
          loads := gap_after_first_frame.loads ++ [0x7018, 0x7010] } :=
  ⟨by decide,
    (dladdr_failure_recovered linux_x86_64 gap_env 1 1 0x500000 0x7010 gap_after_first_frame
      (by decide) (by decide) (by decide)).1,
    (dladdr_failure_recovered linux_x86_64 gap_env 1 1 0x500000 0x7010 gap_after_first_frame
      (by decide) (by decide) (by decide)).2.2.trans (by decide)⟩

/-- C9: a frame whose address resolves to the raw symbol name "main" is logged
and ends the walk, whatever the saved frame pointer and the return address are;
a frame that resolves to another name, or to no name, is logged and the walk
goes on with the caller as the next frame. -/
theorem walk_stops_at_main (P : Platform) (E : Env) (fuel : Nat) (k : Int) (ip bp : Nat)
    (s : Process) (dlinfo : Dl_info) (hbp : bp ≠ 0) (hip : ip ≠ 0)
    (hdl : E.dladdr ip = some dlinfo) :
    (dlinfo.dli_sname = some "main" →
      dump_stack_loop P E (fuel + 1) k ip bp s
        = some { s with
            log := s.log ++
              [⟨"%2d: 0x" ++ SIGINFO_REGFORMAT P ++ " <%s+%d> (%s)",
                [.int k, .uint ip, .str (display_name P E (some "main")),
                 .int (to_int ((ip : Int) - (dlinfo.dli_saddr : Int))),
                 .str dlinfo.dli_fname]⟩] }) ∧
    (dlinfo.dli_sname ≠ some "main" →
      dump_stack_loop P E (fuel + 1) k ip bp s
        = (dump_stack_loop P E fuel (k + 1) (E.mem (bp + P.sizeof_ptr)) (E.mem bp)
            Process.init).map
            (fun rest =>
              { s with
                log := s.log ++
                  ⟨"%2d: 0x" ++ SIGINFO_REGFORMAT P ++ " <%s+%d> (%s)",
                    [.int k, .uint ip, .str (display_name P E dlinfo.dli_sname),
                     .int (to_int ((ip : Int) - (dlinfo.dli_saddr : Int))),
                     .str dlinfo.dli_fname]⟩ :: rest.log,
                loads := s.loads ++ (bp + P.sizeof_ptr) :: bp :: rest.loads })) := by
  constructor
  · intro hm
    rw [dump_stack_loop, if_pos ⟨hbp, hip⟩]
    simp only [hdl, hm, if_true]
    simp [frame_line, siginfo_log, hm]
  · intro hm
    rw [dump_stack_loop, if_pos ⟨hbp, hip⟩]
    simp only [hdl, hm, if_false]
    rw [dump_stack_loop_append]
    simp [record_loads, frame_line, siginfo_log, List.append_assoc]

/-- Witness of C9: in the sample stack the frame of `main` (address 0x401250,
frame pointer 0x7010) has a caller frame at 0x7020 and the return address
0x500000, and the walk entered there as frame 1 logs only the line of `main`. -/
theorem walk_stops_at_main_witness :
    sample_mem 0x7010 ≠ 0 ∧ sample_mem 0x7018 ≠ 0 ∧
    dump_stack_loop linux_x86_64 sample_env 1 1 0x401250 0x7010 Process.init
      = some { Process.init with
          log := [⟨"%2d: 0x%016llx <%s+%d> (%s)",
            [.int 1, .uint 0x401250, .str (some "main"), .int 80,
             .str (some "/usr/bin/daemon")]⟩] } :=
  ⟨by decide, by decide,
    ((walk_stops_at_main linux_x86_64 sample_env 0 1 0x401250 0x7010 Process.init
      ⟨some "/usr/bin/daemon", 0x400000, some "main", 0x401200⟩
      (by decide) (by decide) (by decide)).1 rfl).trans (by decide)⟩

/-- C10: a null instruction address ends the walk.  Started with a null
instruction pointer the context-based `dump_stack` logs only the header and the
closing line, whatever the frame pointer and the memory; and a frame that is not
`main` and whose stored return address (word 1 at the frame pointer) is null is
the last frame logged, whatever its saved frame pointer. -/
theorem walk_stops_at_null_instruction_address (P : Platform) (E : Env) (fuel : Nat) :
    (∀ (ucontext : ucontext_t) (s : Process), ucontext.gregs (SIGINFO_IP_REG P) = 0 →
      dump_stack_context P E fuel ucontext s
        = some { s with
            log := s.log ++ [⟨"Stack trace:", []⟩, ⟨"End of stack trace", []⟩] }) ∧
    (∀ (k : Int) (ip bp : Nat) (s : Process), bp ≠ 0 → ip ≠ 0 →
      E.mem (bp + P.sizeof_ptr) = 0 →
      (E.dladdr ip = none →
        dump_stack_loop P E (fuel + 1) k ip bp s
          = some { s with
              log := s.log ++ [⟨"%2d: [dladdr failed for %p]", [.int k, .ptr ip]⟩],
              loads := s.loads ++ [bp + P.sizeof_ptr, bp] }) ∧
      (∀ dlinfo, E.dladdr ip = some dlinfo → dlinfo.dli_sname ≠ some "main" →
        dump_stack_loop P E (fuel + 1) k ip bp s
          = some { s with
              log := s.log ++
                [⟨"%2d: 0x" ++ SIGINFO_REGFORMAT P ++ " <%s+%d> (%s)",
                  [.int k, .uint ip, .str (display_name P E dlinfo.dli_sname),
                   .int (to_int ((ip : Int) - (dlinfo.dli_saddr : Int))),
                   .str dlinfo.dli_fname]⟩],
              loads := s.loads ++ [bp + P.sizeof_ptr, bp] })) := by
  have hstop : ∀ (n : Nat) (k : Int) (bp : Nat) (s : Process),
      dump_stack_loop P E n k 0 bp s = some s := by
    intro n k bp s
    cases n <;> simp [dump_stack_loop]
  refine ⟨?_, ?_⟩
  · intro ucontext s hip
    unfold dump_stack_context
    simp only [hip, hstop]
    simp [siginfo_log]
  · intro k ip bp s hbp hip hret
    refine ⟨?_, ?_⟩
    · intro hfail
      rw [dump_stack_loop, if_pos ⟨hbp, hip⟩]
      simp only [hfail, hret, hstop]
      simp [record_loads, dladdr_failed_line, siginfo_log]
    · intro dlinfo hdl hm
      rw [dump_stack_loop, if_pos ⟨hbp, hip⟩]
      simp only [hdl, hm, if_false, hret, hstop]
      simp [record_loads, frame_line, siginfo_log]

/-- Witness of C10: a null instruction pointer with the frame pointer at the
sample stack, whose chain is three frames long. -/
theorem walk_stops_at_null_instruction_address_witness :
    sample_mem 0x7000 ≠ 0 ∧
    dump_stack_context linux_x86_64 sample_env 0 (context_at 0 0x7000) Process.init
      = some { Process.init with
          log := Process.init.log ++ [⟨"Stack trace:", []⟩, ⟨"End of stack trace", []⟩] } :=
  ⟨by decide,
    (walk_stops_at_null_instruction_address linux_x86_64 sample_env 0).1
      (context_at 0 0x7000) Process.init (by decide)⟩

/-- On the cyclic chain the loop is still running after any number of iterations. -/
theorem cyclic_walk_never_ends (fuel : Nat) (k : Int) (s : Process) :
    dump_stack_loop linux_x86_64 cyclic_env fuel k 0x401136 0x7000 s = none := by
  have hd : cyclic_env.dladdr 0x401136
      = some ⟨some "/usr/bin/daemon", 0x400000, some "crash_abort", 0x401100⟩ := by decide
  have h1 : cyclic_env.mem (0x7000 + linux_x86_64.sizeof_ptr) = 0x401136 := by decide
  have h0 : cyclic_env.mem 0x7000 = 0x7000 := by decide
  have hc : (0x7000 : Nat) ≠ 0 ∧ (0x401136 : Nat) ≠ 0 := by decide
  induction fuel generalizing k s with
  | zero => rw [dump_stack_loop, if_pos hc]
  | succ n ih =>
    rw [dump_stack_loop, if_pos hc]
    simp only [hd, h1, h0]
    rw [if_neg (by decide)]
    exact ih _ _

/-- C2: the context-based `dump_stack` has no frame cap.  On a chain of 21
frames that ends with a null saved frame pointer it logs 21 frame lines, more
than `SIGINFO_MAX_BT_FRAMES`, between the header and the closing line; on a
frame whose saved frame pointer points back to itself it is still running after
any number of iterations and never logs the closing line. -/
theorem dump_stack_context_exceeds_frame_cap :
    (dump_stack_context linux_x86_64 deep_chain_env 21 (context_at 0x401136 0x7000)
        Process.init).map (fun r => r.log.map (fun l => l.fmt))
      = some ("Stack trace:" :: List.replicate 21 "%2d: 0x%016llx <%s+%d> (%s)"
          ++ ["End of stack trace"])
    ∧ SIGINFO_MAX_BT_FRAMES < 21
    ∧ ∀ fuel, dump_stack_context linux_x86_64 cyclic_env fuel (context_at 0x401136 0x7000)
        Process.init = none := by
  refine ⟨by decide, by decide, ?_⟩
  intro fuel
  have hip : (context_at 0x401136 0x7000).gregs (SIGINFO_IP_REG linux_x86_64) = 0x401136 := by
    decide
  have hbp : (context_at 0x401136 0x7000).gregs (SIGINFO_BP_REG linux_x86_64) = 0x7000 := by
    decide
  unfold dump_stack_context
  simp only [hip, hbp, cyclic_walk_never_ends]

/-! ## Theorems: registration -/

theorem setup_siginfo_loop_all_ok (E : Env) (l : List signal_descriptor) (s : Process)
    (h : ∀ d ∈ l, E.sigaction_errno d.signo = none) :
    setup_siginfo_loop E l s
      = (1, { s with
          sigaction_calls := s.sigaction_calls ++ l.map (fun d => d.signo),
          handled := s.handled ++ l.map (fun d => d.signo) }) := by
  induction l generalizing s with
  | nil => simp [setup_siginfo_loop]
  | cons a rest ih =>
    rw [setup_siginfo_loop]
    simp only [h a (List.mem_cons_self _ _)]
    rw [ih _ (fun d hd => h d (List.mem_cons_of_mem _ hd))]
    simp [List.append_assoc]

theorem setup_siginfo_loop_first_failure (E : Env) (l : List signal_descriptor)
    (pre : List Int) (x : Int) (post : List Int) (e : Int) (s : Process)
    (hsplit : l.map (fun d => d.signo) = pre ++ x :: post)
    (hpre : ∀ y ∈ pre, E.sigaction_errno y = none) (hx : E.sigaction_errno x = some e) :
    setup_siginfo_loop E l s
      = (0, { s with
          log := s.log ++ [⟨"sigaction failed for signal %d. errno is %d (%s)",
            [.int x, .int e, .str (some (E.strerror e))]⟩],
          sigaction_calls := s.sigaction_calls ++ pre ++ [x],
          handled := s.handled ++ pre }) := by
  induction l generalizing pre s with
  | nil => simp at hsplit
  | cons a rest ih =>
    rw [setup_siginfo_loop]
    cases pre with
    | nil =>
      simp only [List.map_cons, List.nil_append, List.cons.injEq] at hsplit
      simp [hsplit.1, hx, siginfo_log]
    | cons y pre1 =>
      simp only [List.map_cons, List.cons_append, List.cons.injEq] at hsplit
      have hy : E.sigaction_errno a.signo = none := by
        rw [hsplit.1]
        exact hpre y (List.mem_cons_self _ _)
      simp only [hy]
      rw [ih pre1 _ hsplit.2 (fun z hz => hpre z (List.mem_cons_of_mem _ hz))]
      simp [hsplit.1, List.append_assoc]

theorem setup_siginfo_loop_returns_one_iff (E : Env) (l : List signal_descriptor) (s : Process) :
    (setup_siginfo_loop E l s).1 = 1 ↔ ∀ d ∈ l, E.sigaction_errno d.signo = none := by
  induction l generalizing s with
  | nil => simp [setup_siginfo_loop]
  | cons a rest ih =>
    rw [setup_siginfo_loop]
    cases ha : E.sigaction_errno a.signo with
    | none =>
      simp only []
      rw [ih]
      simp [ha]
    | some e =>
      simp [ha]

/-- C5: `setup_siginfo` returns 1 exactly when `sigaction` succeeds for SIGILL,
SIGFPE, SIGSEGV, SIGBUS and SIGABRT, and then it has called `sigaction` for the
five in that order, installed the handler for each and logged nothing.  When the
first failure is at signal `x`, after the signals `pre` of the table, it returns
0, logs the one failure line with `x` and the error number, has installed the
handler for the signals of `pre` only and has called `sigaction` for no signal
after `x`. -/
theorem setup_siginfo_all_or_first_failure (P : Platform) (E : Env) (s : Process) :
    ((setup_siginfo P E s).1 = 1 ↔
      ∀ x ∈ [P.SIGILL, P.SIGFPE, P.SIGSEGV, P.SIGBUS, P.SIGABRT], E.sigaction_errno x = none) ∧
    ((∀ x ∈ [P.SIGILL, P.SIGFPE, P.SIGSEGV, P.SIGBUS, P.SIGABRT], E.sigaction_errno x = none) →
      setup_siginfo P E s
        = (1, { s with
            sigaction_calls :=
              s.sigaction_calls ++ [P.SIGILL, P.SIGFPE, P.SIGSEGV, P.SIGBUS, P.SIGABRT],
            handled := s.handled ++ [P.SIGILL, P.SIGFPE, P.SIGSEGV, P.SIGBUS, P.SIGABRT] })) ∧
    (∀ (pre : List Int) (x : Int) (post : List Int) (e : Int),
      [P.SIGILL, P.SIGFPE, P.SIGSEGV, P.SIGBUS, P.SIGABRT] = pre ++ x :: post →
      (∀ y ∈ pre, E.sigaction_errno y = none) → E.sigaction_errno x = some e →
      setup_siginfo P E s
        = (0, { s with
            log := s.log ++ [⟨"sigaction failed for signal %d. errno is %d (%s)",
              [.int x, .int e, .str (some (E.strerror e))]⟩],
            sigaction_calls := s.sigaction_calls ++ pre ++ [x],
            handled := s.handled ++ pre })) := by
  have hmap : (signal_descriptors P).map (fun d => d.signo)
      = [P.SIGILL, P.SIGFPE, P.SIGSEGV, P.SIGBUS, P.SIGABRT] := rfl
  have hall : (∀ x ∈ [P.SIGILL, P.SIGFPE, P.SIGSEGV, P.SIGBUS, P.SIGABRT],
        E.sigaction_errno x = none)
      ↔ ∀ d ∈ signal_descriptors P, E.sigaction_errno d.signo = none := by
    rw [← hmap]
    simp only [List.mem_map, forall_exists_index, and_imp, forall_apply_eq_imp_iff₂]
  refine ⟨?_, ?_, ?_⟩
  · rw [hall]
    exact setup_siginfo_loop_returns_one_iff E _ s
  · intro h
    unfold setup_siginfo
    rw [setup_siginfo_loop_all_ok E _ s (hall.mp h), hmap]
  · intro pre x post e hsplit hpre hx
    exact setup_siginfo_loop_first_failure E _ pre x post e s (hmap.trans hsplit) hpre hx

/-- Witness of C5: `sigaction` refuses SIGSEGV (11), the third signal, with
`EINVAL` (22); SIGILL (4) and SIGFPE (8) are installed, SIGBUS and SIGABRT are
not attempted. -/
theorem setup_siginfo_all_or_first_failure_witness :
    setup_siginfo linux_x86_64 sigsegv_refused_env Process.init
      = (0, { Process.init with
          log := Process.init.log ++ [⟨"sigaction failed for signal %d. errno is %d (%s)",
            [.int 11, .int 22, .str (some (sigsegv_refused_env.strerror 22))]⟩],
          sigaction_calls := Process.init.sigaction_calls ++ [4, 8] ++ [11],
          handled := Process.init.handled ++ [4, 8] }) :=
  (setup_siginfo_all_or_first_failure linux_x86_64 sigsegv_refused_env Process.init).2.2
    [4, 8] 11 [7, 6] 22 (by decide) (by decide) (by decide)

/-! ## Theorems: handler -/

theorem dump_siginfo_append (P : Platform) (signo : Int) (info : siginfo_t) (s : Process) :
    dump_siginfo P signo info s
      = { s with log := s.log ++ (dump_siginfo P signo info Process.init).log } := by
  unfold dump_siginfo
  cases lookup_signal_descriptor P signo <;> cases P.USE_UCONTEXT <;>
    simp [siginfo_log, Process.init]

theorem dump_registers_loop_append (P : Platform) (ucontext : ucontext_t) (n index : Nat)
    (s : Process) :
    dump_registers_loop P ucontext n index s
      = { s with log := s.log ++ (dump_registers_loop P ucontext n index Process.init).log } := by
  induction n generalizing index s with
  | zero => simp [dump_registers_loop, Process.init]
  | succ m ih =>
    rw [dump_registers_loop, dump_registers_loop]
    rw [ih (index + 1) (siginfo_log _ _ s), ih (index + 1) (siginfo_log _ _ Process.init)]
    simp [siginfo_log, Process.init, List.append_assoc]

theorem dump_stack_generic_loop_append (E : Env) (bt : List Nat) (i : Nat) (s : Process) :
    dump_stack_generic_loop E bt i s
      = { s with log := s.log ++ (dump_stack_generic_loop E bt i Process.init).log } := by
  induction bt generalizing i s with
  | nil => simp [dump_stack_generic_loop, Process.init]
  | cons a rest ih =>
    rw [dump_stack_generic_loop, dump_stack_generic_loop]
    rw [ih (i + 1) (siginfo_log _ _ s), ih (i + 1) (siginfo_log _ _ Process.init)]
    simp [siginfo_log, Process.init, List.append_assoc]

theorem dump_stack_append (P : Platform) (E : Env) (fuel : Nat) (ucontext : ucontext_t)
    (s : Process) :
    dump_stack P E fuel ucontext s
      = (dump_stack P E fuel ucontext Process.init).map
          (fun r => { s with log := s.log ++ r.log, loads := s.loads ++ r.loads }) := by
  unfold dump_stack
  cases stack_generic P with
  | true =>
    simp only [if_true, Option.map_some', Option.some.injEq]
    unfold dump_stack_generic
    simp only []
    rw [dump_stack_generic_loop_append E _ 0 (siginfo_log _ _ s),
      dump_stack_generic_loop_append E _ 0 (siginfo_log _ _ Process.init)]
    simp [siginfo_log, Process.init, List.append_assoc]
  | false =>
    simp only [Bool.false_eq_true, if_false]
    unfold dump_stack_context
    simp only []
    rw [dump_stack_loop_append P E fuel 0 _ _ (siginfo_log _ _ s),
      dump_stack_loop_append P E fuel 0 _ _ (siginfo_log _ _ Process.init)]
    cases dump_stack_loop P E fuel 0 (ucontext.gregs (SIGINFO_IP_REG P))
        (ucontext.gregs (SIGINFO_BP_REG P)) Process.init with
    | none => rfl
    | some r => simp [siginfo_log, Process.init, List.append_assoc]

/-- Whenever the stack walk ends, the handler logs the lines of `dump_siginfo`,
then those of `dump_registers` (with `USE_UCONTEXT`), then those of
`dump_stack`, and exits with status 255; the generic walk always ends. -/
theorem signal_handler_report_order (P : Platform) (E : Env) (fuel : Nat) (signum : Int)
    (info : siginfo_t) (ptr : ucontext_t) (s : Process) :
    signal_handler P E fuel signum info ptr s
        = (dump_stack P E fuel ptr Process.init).map
            (fun r =>
              { s with
                log := s.log ++ (dump_siginfo P signum info Process.init).log
                  ++ (if P.USE_UCONTEXT then (dump_registers P ptr Process.init).log else [])
                  ++ r.log,
                loads := s.loads ++ r.loads,
                exit_status := some 255 })
      ∧ (stack_generic P = true → (dump_stack P E fuel ptr Process.init).isSome) := by
  constructor
  · unfold signal_handler
    simp only []
    rw [dump_stack_append]
    cases dump_stack P E fuel ptr Process.init with
    | none => rfl
    | some r =>
      simp only [Option.map_some', Option.some.injEq]
      rw [dump_siginfo_append P signum info s]
      cases P.USE_UCONTEXT with
      | true =>
        simp only [if_true]
        unfold dump_registers
        rw [dump_registers_loop_append P ptr _ 0 { s with log := _ }]
        simp [exit, List.append_assoc]
      | false =>
        simp [exit, List.append_assoc]
  · intro hg
    simp [dump_stack, hg]

/-- C6: on the cyclic frame chain the handler is still inside `dump_stack` after
any number of iterations of the walk: it never reaches `exit(-1)`, for a
registered signal (SIGSEGV) on the context-based build. -/
theorem signal_handler_never_exits_on_cyclic_chain :
    stack_generic linux_x86_64 = false ∧
    ∀ fuel, signal_handler linux_x86_64 cyclic_env fuel 11 ⟨11, 0, 1, 123⟩
      (context_at 0x401136 0x7000) Process.init = none := by
  refine ⟨by decide, ?_⟩
  intro fuel
  have hip : (context_at 0x401136 0x7000).gregs (SIGINFO_IP_REG linux_x86_64) = 0x401136 := by
    decide
  have hbp : (context_at 0x401136 0x7000).gregs (SIGINFO_BP_REG linux_x86_64) = 0x7000 := by
    decide
  have hg : stack_generic linux_x86_64 = false := by decide
  unfold signal_handler dump_stack dump_stack_context
  simp only [hg, Bool.false_eq_true, if_false, hip, hbp, cyclic_walk_never_ends]

end Siginfo
